import Mathlib

/-!
Verification of the incback incremental-backup orchestrator.

This file gives a shallow embedding, in Lean, of the configuration
validation, path handling, command composition, remote probing and
backup orchestration logic of the incback CLI tool, and proves the
behavioural properties stated about it.

External effects (the filesystem, spawned shell processes, the remote
shell) are modelled as explicit oracle parameters: a function from a
command string to the `Except`-valued outcome of running it, a
predicate for file existence, and so on.  Every definition mirrors the
corresponding TypeScript function of the repository; the doc comment
of each definition names its source.
-/

namespace Incback

/-- Model of a JavaScript runtime value as far as the configuration
type guard inspects it: a string, some non-string primitive, or null.
An absent (undefined) field is modelled as `Option.none` at the use
site. -/
inductive JSValue where
  | str : String → JSValue
  | num : Int → JSValue
  | boolean : Bool → JSValue
  | null : JSValue
  deriving DecidableEq, Repr

/-- Raw (unvalidated) options object as received from JSON parsing or
from the CLI parser, restricted to the fields that the type guard
`isProgramOptions` inspects.  `none` models an undefined field. -/
structure RawOptions where
  src : Option JSValue := none
  dest : Option JSValue := none
  remoteRole : Option JSValue := none
  remoteUser : Option JSValue := none
  remoteHost : Option JSValue := none
  deriving DecidableEq, Repr

/-- Model of the JS string typeof test on a possibly-absent field:
true exactly when the field is present and holds a string. -/
def isStringField : Option JSValue → Bool
  | some (JSValue.str _) => true
  | _ => false

/-- Embedding of `isProgramOptions` (src/type-guards.ts): src and dest
must be strings; if any of the three remote fields is present, the
role must be exactly the string "src" or "dest" and user and host must
be strings. -/
def isProgramOptions (obj : RawOptions) : Bool :=
  let mandatory := isStringField obj.src && isStringField obj.dest
  if !mandatory then
    false
  else if obj.remoteRole.isSome || obj.remoteUser.isSome || obj.remoteHost.isSome then
    (obj.remoteRole == some (JSValue.str "src") || obj.remoteRole == some (JSValue.str "dest"))
      && isStringField obj.remoteUser && isStringField obj.remoteHost
  else
    true

/-- Typed program options (interface `ProgramOptions` in src/types.ts).
Optional fields are `Option`s; `backupPrefixOpt` and `rsyncOptions`
model the `backupPrefix` and `rsyncOptions` fields. -/
structure ProgramOptions where
  src : String
  dest : String
  remoteRole : Option String := none
  remoteUser : Option String := none
  remoteHost : Option String := none
  excludeFrom : Option String := none
  logFile : Option String := none
  backupPrefixOpt : Option String := none
  rsyncOptions : Option String := none
  deriving DecidableEq, Repr

/-- Derived configuration (interface `ProgramConfig` in src/types.ts):
the options plus the computed `isRemoteSrc` / `isRemoteDest` flags.
The logger object is modelled separately as a list of emitted warning
messages. -/
structure ProgramConfig extends ProgramOptions where
  isRemoteSrc : Bool
  isRemoteDest : Bool
  deriving DecidableEq, Repr

/-- Model of the Node function `path.isAbsolute` for POSIX paths: the path starts
with a slash. -/
def isAbsolutePath (p : String) : Bool :=
  match p.data with
  | '/' :: _ => true
  | _ => false

/-- Whether a path string ends in a slash. -/
def endsWithSlash (a : String) : Bool :=
  a.data.getLast? == some '/'

/-- Model of the Node function `path.join` on two segments, without the segment
normalization (`..` folding) that Node performs; the claims under
verification only depend on the final component and on slash
placement, which this model shares with Node for already-normalized
inputs. -/
def pathJoin (a b : String) : String :=
  if a = "" then b
  else if b = "" then a
  else if endsWithSlash a then a ++ b
  else a ++ "/" ++ b

/-- Model of the Node POSIX function `path.basename`: trailing slashes are
ignored and the component after the last remaining slash is
returned. -/
def pathBasename (p : String) : String :=
  String.mk (((p.data.reverse.dropWhile (· = '/')).takeWhile (· ≠ '/')).reverse)

/-- Embedding of `optionsToConfig` (src/config.ts): computes the
`isRemoteSrc` / `isRemoteDest` flags from `remoteRole`, resolves the
exclude file against the working directory and drops it with a warning
when it does not exist on the (oracle) filesystem, and defaults the
backup prefix to "BACKUP-".  Returns the configuration together with
the list of warnings the logger emitted. -/
def optionsToConfig (fsExists : String → Bool) (cwd : String) (o : ProgramOptions) :
    ProgramConfig × List String :=
  let isRemoteSrc := o.remoteRole == some "src"
  let isRemoteDest := o.remoteRole == some "dest"
  let excludeResult : Option String × List String :=
    match o.excludeFrom with
    | some e =>
      if e ≠ "" then
        let resolved := if isAbsolutePath e then e else pathJoin cwd e
        if fsExists resolved then (some resolved, [])
        else (none, ["Exclude file not found: " ++ resolved])
      else (some e, [])
    | none => (none, [])
  let bkPref := o.backupPrefixOpt.getD "BACKUP-"
  ({ toProgramOptions :=
      { o with excludeFrom := excludeResult.1, backupPrefixOpt := some bkPref }
     isRemoteSrc := isRemoteSrc
     isRemoteDest := isRemoteDest }, excludeResult.2)

/-- Executable model of the JS `String.prototype.trim`: removes
whitespace characters from both ends of the string. -/
def jsTrim (s : String) : String :=
  String.mk (((s.data.dropWhile Char.isWhitespace).reverse.dropWhile
    Char.isWhitespace).reverse)

/-- Outcome of a spawned child process, as observed by the handlers
that `executeCommand` (src/exec.ts) installs: either the spawn itself
errored, or the process closed with an exit code (null when killed by
a signal) and the accumulated stdout and stderr text. -/
inductive ProcOutcome where
  | spawnError : String → ProcOutcome
  | closed : Option Int → String → String → ProcOutcome
  deriving DecidableEq, Repr

/-- Rendering of the JS template interpolation of the close code: a
number prints as itself, null prints as "null". -/
def codeText : Option Int → String
  | some n => toString n
  | none => "null"

/-- Embedding of `executeCommand` (src/exec.ts): rejects on a spawn
error; on close, rejects when the exit code differs from 0 or when any
stderr text was captured, and otherwise resolves with the trimmed
stdout. -/
def executeCommand (command : String) (outcome : ProcOutcome) : Except String String :=
  match outcome with
  | ProcOutcome.spawnError msg =>
    Except.error ("Error executing command \"" ++ command ++ "\": " ++ msg)
  | ProcOutcome.closed code stdout stderr =>
    if code ≠ some 0 then
      Except.error ("Error executing command \"" ++ command ++ "\": " ++
        (if stderr ≠ "" then stderr else "Process exited with code " ++ codeText code))
    else if stderr ≠ "" then
      Except.error ("Error executing command \"" ++ command ++ "\": " ++ stderr)
    else
      Except.ok (jsTrim stdout)

/-- Embedding of `escapeShellArg` (src/exec.ts): wraps the argument in
single quotes after replacing every single quote by the sequence
quote, backslash-escaped quote, quote. -/
def escapeShellArg (arg : String) : String :=
  "\x27" ++ arg.replace "\x27" "\x27\\\x27\x27" ++ "\x27"

/-- Oracle for the world of external shell execution: maps the exact
command string handed to `executeCommand` to the resolved or
rejected result. -/
def ShellRunner : Type := String → Except String String

/-- SSH command string that `remoteCommand` (src/exec.ts) builds for a
given configuration and remote command. -/
def remoteSshCmd (cfg : ProgramOptions) (command : String) : String :=
  "ssh -o BatchMode=yes -o ConnectTimeout=5 " ++
    escapeShellArg ((cfg.remoteUser.getD "") ++ "@" ++ (cfg.remoteHost.getD "")) ++
    " " ++ escapeShellArg command

/-- Embedding of `remoteCommand` (src/exec.ts).  Missing or empty
remoteUser/remoteHost reject immediately with a fixed message, before
any command runs.  Otherwise the SSH invocation is executed; a failure
propagates when `throwError` is true and is converted into an empty
resolved string when it is false.  The second component records the
command strings actually executed. -/
def remoteCommand (run : ShellRunner) (command : String) (cfg : ProgramOptions)
    (throwErr : Bool) : Except String String × List String :=
  let remoteUser := cfg.remoteUser.getD ""
  let remoteHost := cfg.remoteHost.getD ""
  if remoteHost = "" || remoteUser = "" then
    (Except.error "remoteCommand requires remoteUser and remoteHost in configuration", [])
  else
    let sshCommand := remoteSshCmd cfg command
    match run sshCommand with
    | Except.ok out => (Except.ok out, [sshCommand])
    | Except.error e =>
      (if throwErr then Except.error e else Except.ok "", [sshCommand])

/-- SSH command string that `remoteExists` (src/remote-exists.ts)
builds: an existence test whose outcome is signalled through sentinel
output, with the alternation forcing exit code 0 either way. -/
def remoteExistsCmd (remoteUser remoteHost remotePath : String) : String :=
  "ssh -o BatchMode=yes -o ConnectTimeout=5 " ++ remoteUser ++ "@" ++ remoteHost ++
    " \"test -e \\\"" ++ remotePath ++ "\\\" && echo exists || echo not_exists\""

/-- Embedding of `remoteExists` (src/remote-exists.ts): runs the probe
command and resolves to true exactly when it resolved with the
sentinel output "exists"; every rejection resolves to false. -/
def remoteExists (run : ShellRunner) (remoteUser remoteHost remotePath : String) : Bool :=
  match run (remoteExistsCmd remoteUser remoteHost remotePath) with
  | Except.ok stdout => jsTrim stdout == "exists"
  | Except.error _ => false

/-- The short and long option flags registered on the Commander
program by `parseConfigFromArgs` (src/config.ts), in source order. -/
def cliOptionFlags : List (String × String) :=
  [("-c", "--config"), ("-s", "--src"), ("-d", "--dest"),
   ("-R", "--remote-role"), ("-U", "--remote-user"), ("-H", "--remote-host"),
   ("-e", "--exclude-from"), ("-l", "--log-file")]

/-- Model of a JS template interpolation of a possibly-undefined
string: an undefined value renders as the text "undefined". -/
def jsTmpl (o : Option String) : String :=
  o.getD "undefined"

/-- Embedding of `getPath` (src/backup.ts): a remote path renders as
user@host:path; a local path is taken as given when absolute and
joined onto the working directory otherwise. -/
def getPath (cfg : ProgramConfig) (cwd : String) (pathStr : String) (isRemote : Bool) : String :=
  if isRemote then
    jsTmpl cfg.remoteUser ++ "@" ++ jsTmpl cfg.remoteHost ++ ":" ++ pathStr
  else if isAbsolutePath pathStr then
    pathStr
  else
    pathJoin cwd pathStr

/-- Embedding of `getSrcPath` (src/backup.ts). -/
def getSrcPath (cfg : ProgramConfig) (cwd : String) : String :=
  getPath cfg cwd cfg.src cfg.isRemoteSrc

/-- Embedding of `getDestPath` (src/backup.ts). -/
def getDestPath (cfg : ProgramConfig) (cwd : String) : String :=
  getPath cfg cwd cfg.dest cfg.isRemoteDest

/-- The argument structure of the rsync invocation composed by
`backup` (src/backup.ts): the option cluster after the leading dash,
the optional exclude-from argument, the optional link-dest argument,
and the trailing source and destination arguments.  Each field holds
the exact text the source interpolates into the command string. -/
structure RsyncInvocation where
  optionCluster : String
  excludeFromArg : Option String
  linkDestArg : Option String
  srcArg : String
  destArg : String
  deriving DecidableEq, Repr

/-- Composition of the rsync invocation performed inline by `backup`
(src/backup.ts, steps 2 and 3): the option cluster defaults to "az"
and otherwise carries `rsyncOptions` verbatim; the exclude-from
argument appears when the configuration carries a truthy exclude
path; the link-dest argument appears exactly when a previous backup
directory was found and points at `../{its basename}/`; source and
destination both end in a slash. -/
def composeRsync (cfg : ProgramConfig) (cwd : String) (latestBackupDir : Option String)
    (currentBackupDirname : String) : RsyncInvocation :=
  { optionCluster := cfg.rsyncOptions.getD "az"
    excludeFromArg :=
      match cfg.excludeFrom with
      | some e => if e ≠ "" then some e else none
      | none => none
    linkDestArg := latestBackupDir.map (fun d => "../" ++ pathBasename d ++ "/")
    srcArg := getSrcPath cfg cwd ++ "/"
    destArg := getDestPath cfg cwd ++ "/" ++ pathBasename currentBackupDirname ++ "/" }

/-- Rendering of the composed rsync invocation into the exact command
string that `backup` (src/backup.ts) accumulates and executes,
including its quoting and spacing. -/
def renderRsync (r : RsyncInvocation) : String :=
  "rsync -" ++ r.optionCluster ++ " --delete " ++
    (match r.excludeFromArg with
     | some e => " --exclude-from=\"" ++ e ++ "\" "
     | none => "") ++
    (match r.linkDestArg with
     | some l => " --link-dest=\"" ++ l ++ "\" "
     | none => "") ++
    " \"" ++ r.srcArg ++ "\" \"" ++ r.destArg ++ "\""

/-- Environment of external effects available to the orchestrator:
the local filesystem existence check, the recursive local directory
creation, the shell runner, and the working directory. -/
structure BackupEnv where
  fsExists : String → Bool
  mkdirRec : String → Except String Unit
  run : ShellRunner
  cwd : String

/-- One external command execution performed by the orchestrator,
tagged by the call site in src/backup.ts that issued it: the remote
existence probe, an SSH command via `remoteCommand`, the local
directory listing, or the final rsync sync invocation. -/
inductive ExecEvent where
  | probe : String → ExecEvent
  | remoteSh : String → ExecEvent
  | listing : String → ExecEvent
  | sync : String → ExecEvent
  deriving DecidableEq, Repr

/-- Embedding of `existsPath` (src/backup.ts): a remote path is
checked with `remoteExists` on the configured user and host, a local
path with the filesystem oracle.  Also returns the executions
performed. -/
def existsPath (env : BackupEnv) (cfg : ProgramConfig) (pathStr : String) (isRemote : Bool) :
    Bool × List ExecEvent :=
  if isRemote then
    (remoteExists env.run (jsTmpl cfg.remoteUser) (jsTmpl cfg.remoteHost) pathStr,
     [ExecEvent.probe (remoteExistsCmd (jsTmpl cfg.remoteUser) (jsTmpl cfg.remoteHost) pathStr)])
  else
    (env.fsExists pathStr, [])

/-- Embedding of `existsSrcPath` (src/backup.ts). -/
def existsSrcPath (env : BackupEnv) (cfg : ProgramConfig) : Bool × List ExecEvent :=
  existsPath env cfg cfg.src cfg.isRemoteSrc

/-- Embedding of `existsDestPath` (src/backup.ts). -/
def existsDestPath (env : BackupEnv) (cfg : ProgramConfig) : Bool × List ExecEvent :=
  existsPath env cfg cfg.dest cfg.isRemoteDest

/-- The listing command `getLatestBackupDir` (src/backup.ts) builds. -/
def latestBackupLsCmd (cfg : ProgramConfig) : String :=
  "ls -dt \"" ++ cfg.dest ++ "/" ++ cfg.backupPrefixOpt.getD "BACKUP-" ++ "\"* | head -n 1"

/-- Embedding of `getLatestBackupDir` (src/backup.ts): for a remote
destination the listing runs through `remoteCommand` with errors
swallowed (a rejection or the precondition failure yields null); for a
local destination a missing directory short-circuits to null,
otherwise the listing runs locally with any rejection yielding null.
A non-empty resolved listing is trimmed into the latest directory. -/
def getLatestBackupDir (env : BackupEnv) (cfg : ProgramConfig) :
    Option String × List ExecEvent :=
  let lsCmd := latestBackupLsCmd cfg
  if cfg.isRemoteDest then
    match remoteCommand env.run lsCmd cfg.toProgramOptions false with
    | (Except.ok r, tr) => (if r ≠ "" then some (jsTrim r) else none, tr.map ExecEvent.remoteSh)
    | (Except.error _, tr) => (none, tr.map ExecEvent.remoteSh)
  else
    if !(env.fsExists cfg.dest) then
      (none, [])
    else
      match env.run lsCmd with
      | Except.ok r => (if r ≠ "" then some (jsTrim r) else none, [ExecEvent.listing lsCmd])
      | Except.error _ => (none, [ExecEvent.listing lsCmd])

/-- Embedding of `createDestDir` (src/backup.ts): a remote destination
is created through `remoteCommand` with throwError set to true, so
failures propagate; a local destination is created with the recursive
mkdir oracle. -/
def createDestDir (env : BackupEnv) (cfg : ProgramConfig) :
    Except String Unit × List ExecEvent :=
  if cfg.isRemoteDest then
    let mkdirCmd := "mkdir -p \"" ++ cfg.dest ++ "\""
    match remoteCommand env.run mkdirCmd cfg.toProgramOptions true with
    | (Except.ok _, tr) => (Except.ok (), tr.map ExecEvent.remoteSh)
    | (Except.error e, tr) => (Except.error e, tr.map ExecEvent.remoteSh)
  else
    (env.mkdirRec cfg.dest, [])

/-- Embedding of `backup` (src/backup.ts): checks that the source
exists (aborting with a descriptive error when it does not), ensures
the destination exists (creating it, with a creation failure fatal),
finds the most recent backup directory, composes the rsync command in
initial or incremental mode, and executes it.  Returns the overall
result together with the trace of external command executions. -/
def backup (env : BackupEnv) (cfg : ProgramConfig) (suffix : String) :
    Except String Unit × List ExecEvent :=
  let currentBackupDirname :=
    pathJoin cfg.dest ((cfg.backupPrefixOpt.getD "BACKUP-") ++ suffix)
  let srcCheck := existsSrcPath env cfg
  if !srcCheck.1 then
    (Except.error ("Source directory \"" ++ cfg.src ++ "\" does not exist."), srcCheck.2)
  else
    let destCheck := existsDestPath env cfg
    let creation : Except String Unit × List ExecEvent :=
      if !destCheck.1 then
        match createDestDir env cfg with
        | (Except.ok _, tr) => (Except.ok (), tr)
        | (Except.error _, tr) =>
          (Except.error ("Destination directory \"" ++ cfg.dest ++
            "\" does not exist and could not be created."), tr)
      else
        (Except.ok (), [])
    match creation with
    | (Except.error e, tr) => (Except.error e, srcCheck.2 ++ destCheck.2 ++ tr)
    | (Except.ok _, tr) =>
      let latest := getLatestBackupDir env cfg
      let rsyncCmd := renderRsync (composeRsync cfg env.cwd latest.1 currentBackupDirname)
      let res := env.run rsyncCmd
      (res.map (fun _ => ()),
       srcCheck.2 ++ destCheck.2 ++ tr ++ latest.2 ++ [ExecEvent.sync rsyncCmd])

/-- Exit code of the process as wired in src/index.ts: `backupRun`
resolving exits with 0, any rejection is caught and exits with 1. -/
def processExitCode (result : Except String Unit) : Nat :=
  match result with
  | Except.ok _ => 0
  | Except.error _ => 1

/-- Wall-clock instant at second precision, in UTC, as the fields that
`Date.toISOString` renders. -/
structure Timestamp where
  year : Nat
  month : Nat
  day : Nat
  hour : Nat
  minute : Nat
  second : Nat
  deriving DecidableEq, Repr

/-- Two-digit zero-padded decimal rendering of a field value below
100, as `toISOString` renders months, days, hours, minutes and
seconds. -/
def pad2 (n : Nat) : List Char :=
  [Nat.digitChar (n / 10), Nat.digitChar (n % 10)]

/-- Four-digit zero-padded decimal rendering of a year below 10000, as
`toISOString` renders it. -/
def pad4 (n : Nat) : List Char :=
  [Nat.digitChar (n / 1000), Nat.digitChar (n / 100 % 10),
   Nat.digitChar (n / 10 % 10), Nat.digitChar (n % 10)]

/-- Character list of the backup directory name suffix computed in
`backup` (src/backup.ts): the ISO 8601 UTC rendering of the current
instant with the colons removed and the fractional-seconds tail (and
the trailing Z with it) cut off at the first dot, leaving
YYYY-MM-DDTHHMMSS. -/
def timestampSuffixChars (t : Timestamp) : List Char :=
  pad4 t.year ++ '-' :: (pad2 t.month ++ '-' :: (pad2 t.day ++ 'T' ::
    (pad2 t.hour ++ (pad2 t.minute ++ pad2 t.second))))

/-- String form of the timestamp suffix. -/
def timestampSuffix (t : Timestamp) : String :=
  String.mk (timestampSuffixChars t)

/-- Backup directory name generated by `backup` (src/backup.ts):
the configured prefix followed by the timestamp suffix. -/
def backupDirName (pre : String) (t : Timestamp) : String :=
  pre ++ timestampSuffix t

/-- Validity of a timestamp as a calendar instant that
`Date.toISOString` can produce with a four-digit year. -/
def Timestamp.Valid (t : Timestamp) : Prop :=
  t.year ≤ 9999 ∧ 1 ≤ t.month ∧ t.month ≤ 12 ∧ 1 ≤ t.day ∧ t.day ≤ 31 ∧
    t.hour ≤ 23 ∧ t.minute ≤ 59 ∧ t.second ≤ 59

/-- Chronological strict order on timestamps at second precision:
the first instant is at least one second before the second. -/
def chronoLt (a b : Timestamp) : Prop :=
  a.year < b.year ∨ (a.year = b.year ∧
    (a.month < b.month ∨ (a.month = b.month ∧
      (a.day < b.day ∨ (a.day = b.day ∧
        (a.hour < b.hour ∨ (a.hour = b.hour ∧
          (a.minute < b.minute ∨ (a.minute = b.minute ∧
            a.second < b.second)))))))))

/-! Helper lemmas about the lexicographic order on character lists,
used to relate the generated directory names to chronological order. -/

/-- Digit characters compare in the order of the digits they render. -/
lemma digitChar_lt_digitChar {a b : Nat} (ha : a < 10) (hb : b < 10) (hab : a < b) :
    Nat.digitChar a < Nat.digitChar b := by
  interval_cases a <;> interval_cases b <;> decide

/-- Appending on the left of both sides preserves lexicographic
strict order. -/
lemma list_lt_append_left {r1 r2 : List Char} (l : List Char) (h : List.lt r1 r2) :
    List.lt (l ++ r1) (l ++ r2) := by
  induction l with
  | nil => simpa using h
  | cons a as ih => exact List.lt.tail (lt_irrefl a) (lt_irrefl a) ih

/-- A lexicographic strict inequality between two lists of the same
length survives appending arbitrary tails to each side. -/
lemma list_lt_append {f1 f2 : List Char} (r1 r2 : List Char)
    (hlen : f1.length = f2.length) (h : List.lt f1 f2) :
    List.lt (f1 ++ r1) (f2 ++ r2) := by
  induction h with
  | nil b bs => simp at hlen
  | head as bs hab => exact List.lt.head _ _ hab
  | tail hne1 hne2 _ ih => exact List.lt.tail hne1 hne2 (ih (by simpa using hlen))

/-- Two-digit zero-padded renderings compare in the order of the
numbers they render. -/
lemma pad2_lt {a b : Nat} (hb : b < 100) (hab : a < b) : List.lt (pad2 a) (pad2 b) := by
  have ha : a < 100 := lt_trans hab hb
  rcases Nat.lt_or_ge (a / 10) (b / 10) with h1 | h1
  · exact List.lt.head _ _ (digitChar_lt_digitChar (by omega) (by omega) h1)
  · have e1 : a / 10 = b / 10 := by omega
    have h2 : a % 10 < b % 10 := by omega
    rw [pad2, pad2, e1]
    exact List.lt.tail (lt_irrefl _) (lt_irrefl _)
      (List.lt.head _ _ (digitChar_lt_digitChar (by omega) (by omega) h2))

/-- Four-digit zero-padded renderings compare in the order of the
numbers they render. -/
lemma pad4_lt {a b : Nat} (hb : b < 10000) (hab : a < b) : List.lt (pad4 a) (pad4 b) := by
  have ha : a < 10000 := lt_trans hab hb
  rcases Nat.lt_or_ge (a / 1000) (b / 1000) with h1 | h1
  · exact List.lt.head _ _ (digitChar_lt_digitChar (by omega) (by omega) h1)
  · have e1 : a / 1000 = b / 1000 := by omega
    rw [pad4, pad4, e1]
    rcases Nat.lt_or_ge (a / 100 % 10) (b / 100 % 10) with h2 | h2
    · exact List.lt.tail (lt_irrefl _) (lt_irrefl _)
        (List.lt.head _ _ (digitChar_lt_digitChar (by omega) (by omega) h2))
    · have e2 : a / 100 % 10 = b / 100 % 10 := by omega
      rw [e2]
      rcases Nat.lt_or_ge (a / 10 % 10) (b / 10 % 10) with h3 | h3
      · exact List.lt.tail (lt_irrefl _) (lt_irrefl _) (List.lt.tail (lt_irrefl _) (lt_irrefl _)
          (List.lt.head _ _ (digitChar_lt_digitChar (by omega) (by omega) h3)))
      · have e3 : a / 10 % 10 = b / 10 % 10 := by omega
        have h4 : a % 10 < b % 10 := by omega
        rw [e3]
        exact List.lt.tail (lt_irrefl _) (lt_irrefl _) (List.lt.tail (lt_irrefl _) (lt_irrefl _)
          (List.lt.tail (lt_irrefl _) (lt_irrefl _)
            (List.lt.head _ _ (digitChar_lt_digitChar (by omega) (by omega) h4))))

/-- The timestamp suffix renderings of two valid instants compare
lexicographically in chronological order. -/
lemma timestampSuffixChars_lt {t1 t2 : Timestamp} (h1 : t1.Valid) (h2 : t2.Valid)
    (hlt : chronoLt t1 t2) :
    List.lt (timestampSuffixChars t1) (timestampSuffixChars t2) := by
  obtain ⟨hy1, hmo1a, hmo1b, hd1a, hd1b, hh1, hmi1, hs1⟩ := h1
  obtain ⟨hy2, hmo2a, hmo2b, hd2a, hd2b, hh2, hmi2, hs2⟩ := h2
  unfold timestampSuffixChars
  rcases hlt with hy | ⟨ey, hrest⟩
  · exact list_lt_append _ _ (by simp [pad4]) (pad4_lt (by omega) hy)
  · rw [ey]
    apply list_lt_append_left
    rcases hrest with hm | ⟨em, hrest⟩
    · exact List.lt.tail (lt_irrefl _) (lt_irrefl _)
        (list_lt_append _ _ (by simp [pad2]) (pad2_lt (by omega) hm))
    · rw [em]
      apply List.lt.tail (lt_irrefl _) (lt_irrefl _)
      apply list_lt_append_left
      rcases hrest with hd | ⟨ed, hrest⟩
      · exact List.lt.tail (lt_irrefl _) (lt_irrefl _)
          (list_lt_append _ _ (by simp [pad2]) (pad2_lt (by omega) hd))
      · rw [ed]
        apply List.lt.tail (lt_irrefl _) (lt_irrefl _)
        apply list_lt_append_left
        apply List.lt.tail (lt_irrefl _) (lt_irrefl _)
        rcases hrest with hh | ⟨eh, hrest⟩
        · exact list_lt_append _ _ (by simp [pad2]) (pad2_lt (by omega) hh)
        · rw [eh]
          apply list_lt_append_left
          rcases hrest with hmi | ⟨emi, hs⟩
          · exact list_lt_append _ _ (by simp [pad2]) (pad2_lt (by omega) hmi)
          · rw [emi]
            apply list_lt_append_left
            exact pad2_lt (by omega) hs

/-! Theorems settling the specification claims. -/

/-- C3: backup directory names generated with the same prefix at
wall-clock times at least one second apart sort in creation order
under lexicographic string comparison: for valid instants, strict
chronological order at second precision implies strict lexicographic
order of the generated names. -/
theorem backupDirName_lex_matches_chrono (pre : String) (t1 t2 : Timestamp)
    (h1 : t1.Valid) (h2 : t2.Valid) (hlt : chronoLt t1 t2) :
    backupDirName pre t1 < backupDirName pre t2 := by
  have hdata : ∀ t : Timestamp,
      (backupDirName pre t).data = pre.data ++ timestampSuffixChars t := by
    intro t
    simp [backupDirName, timestampSuffix, String.data_append]
  have hlist : List.lt (backupDirName pre t1).data (backupDirName pre t2).data := by
    rw [hdata t1, hdata t2]
    exact list_lt_append_left pre.data (timestampSuffixChars_lt h1 h2 hlt)
  exact String.lt_iff_toList_lt.mpr
    ((List.lt_iff_lex_lt (backupDirName pre t1).data (backupDirName pre t2).data).mp hlist)

/-- C3 witness: two instants one second apart produce names in strict
lexicographic order. -/
theorem backupDirName_lex_matches_chrono_witness :
    backupDirName "BACKUP-" ⟨2025, 11, 23, 19, 30, 45⟩ <
      backupDirName "BACKUP-" ⟨2025, 11, 23, 19, 30, 46⟩ :=
  backupDirName_lex_matches_chrono "BACKUP-" ⟨2025, 11, 23, 19, 30, 45⟩
    ⟨2025, 11, 23, 19, 30, 46⟩
    ⟨by decide, by decide, by decide, by decide, by decide, by decide, by decide, by decide⟩
    ⟨by decide, by decide, by decide, by decide, by decide, by decide, by decide, by decide⟩
    (Or.inr ⟨rfl, Or.inr ⟨rfl, Or.inr ⟨rfl, Or.inr ⟨rfl, Or.inr ⟨rfl, by decide⟩⟩⟩⟩⟩)

/-- C7: a command execution modelled after the close handler of
`executeCommand` rejects exactly when the exit code differs from zero
or stderr text was captured, and otherwise resolves with the trimmed
stdout. -/
theorem executeCommand_fails_iff (command : String) (code : Option Int)
    (stdout stderr : String) :
    ((∃ msg, executeCommand command (ProcOutcome.closed code stdout stderr) =
        Except.error msg) ↔ (code ≠ some 0 ∨ stderr ≠ "")) ∧
    (code = some 0 → stderr = "" →
      executeCommand command (ProcOutcome.closed code stdout stderr) =
        Except.ok (jsTrim stdout)) := by
  constructor
  · by_cases hc : code = some 0 <;> by_cases hs : stderr = "" <;>
      simp [executeCommand, hc, hs]
  · intro hc hs
    simp [executeCommand, hc, hs]

/-- C7 witness: a non-zero exit rejects, and a clean zero exit
resolves with the trimmed stdout. -/
theorem executeCommand_fails_iff_witness :
    (∃ msg, executeCommand "rsync -az --delete" (ProcOutcome.closed (some 23) "" "err") =
      Except.error msg) ∧
    executeCommand "rsync -az --delete" (ProcOutcome.closed (some 0) " done " "") =
      Except.ok (jsTrim " done ") :=
  ⟨(executeCommand_fails_iff "rsync -az --delete" (some 23) "" "err").1.mpr
      (Or.inl (by decide)),
   (executeCommand_fails_iff "rsync -az --delete" (some 0) " done " "").2 rfl rfl⟩

/-- C10: with a missing or empty remote user or host, `remoteCommand`
rejects with its fixed precondition message regardless of the
throwError argument; a transport failure with throwError false is by
contrast converted to an empty resolved string. -/
theorem remoteCommand_precondition_always_throws (run : ShellRunner) (command : String)
    (cfg : ProgramOptions) (throwErr : Bool)
    (hmiss : cfg.remoteUser.getD "" = "" ∨ cfg.remoteHost.getD "" = "") :
    (remoteCommand run command cfg throwErr).1 =
      Except.error "remoteCommand requires remoteUser and remoteHost in configuration" ∧
    (∀ u hs e, cfg.remoteUser = some u → cfg.remoteHost = some hs →
      run (remoteSshCmd cfg command) = Except.error e → u ≠ "" → hs ≠ "" →
      (remoteCommand run command cfg false).1 = Except.ok "") := by
  constructor
  · rcases hmiss with hu | hh
    · simp [remoteCommand, hu]
    · simp [remoteCommand, hh]
  · intro u hs e hu hh hrun hune hhne
    simp [remoteCommand, hu, hh, hune, hhne, hrun]

/-- C10 witness: a configuration without remote fields rejects with
the precondition message even in swallow-errors mode. -/
theorem remoteCommand_precondition_always_throws_witness :
    (remoteCommand (fun _ => Except.ok "") "mkdir -p \"/b\""
        { src := "/a", dest := "/b" } false).1 =
      Except.error "remoteCommand requires remoteUser and remoteHost in configuration" :=
  (remoteCommand_precondition_always_throws (fun _ => Except.ok "") "mkdir -p \"/b\""
    { src := "/a", dest := "/b" } false (Or.inl rfl)).1

/-- C5: the remote existence probe is a total boolean over every
execution outcome: it reports true exactly when the probe command
resolved with the sentinel output "exists", and every rejection of the
probe command reports false. -/
theorem remoteExists_total_sentinel (run : ShellRunner) (u hs p : String) :
    (remoteExists run u hs p = true ↔
      ∃ out, run (remoteExistsCmd u hs p) = Except.ok out ∧ jsTrim out = "exists") ∧
    (∀ e, run (remoteExistsCmd u hs p) = Except.error e →
      remoteExists run u hs p = false) := by
  constructor
  · cases hr : run (remoteExistsCmd u hs p) with
    | ok out => simp [remoteExists, hr]
    | error e => simp [remoteExists, hr]
  · intro e hr
    simp [remoteExists, hr]

/-- C5 witness: a connection failure reports false, and sentinel
output reports true. -/
theorem remoteExists_total_sentinel_witness :
    remoteExists (fun _ => Except.error "ssh: connect timed out") "u" "unreachable" "/p" =
      false ∧
    remoteExists (fun _ => Except.ok "exists") "u" "h" "/p" = true :=
  ⟨(remoteExists_total_sentinel (fun _ => Except.error "ssh: connect timed out")
      "u" "unreachable" "/p").2 "ssh: connect timed out" rfl,
   (remoteExists_total_sentinel (fun _ => Except.ok "exists") "u" "h" "/p").1.mpr
      ⟨"exists", rfl, by decide⟩⟩

/-- C4: when any of the three remote fields is present, validation
accepts exactly the complete well-formed triples (role exactly "src"
or "dest", user and host strings, with src and dest strings as
always), so a partial remote triple is rejected; and on the derived
configuration, role "src" makes exactly isRemoteSrc true, role "dest"
makes exactly isRemoteDest true, and an absent role leaves both
false. -/
theorem remote_triple_validation (raw : RawOptions) (o : ProgramOptions)
    (fs : String → Bool) (cwd : String) :
    ((raw.remoteRole.isSome ∨ raw.remoteUser.isSome ∨ raw.remoteHost.isSome) →
      (isProgramOptions raw = true ↔
        (isStringField raw.src = true ∧ isStringField raw.dest = true ∧
         (raw.remoteRole = some (JSValue.str "src") ∨
          raw.remoteRole = some (JSValue.str "dest")) ∧
         isStringField raw.remoteUser = true ∧ isStringField raw.remoteHost = true))) ∧
    (o.remoteRole = some "src" →
      (optionsToConfig fs cwd o).1.isRemoteSrc = true ∧
      (optionsToConfig fs cwd o).1.isRemoteDest = false) ∧
    (o.remoteRole = some "dest" →
      (optionsToConfig fs cwd o).1.isRemoteSrc = false ∧
      (optionsToConfig fs cwd o).1.isRemoteDest = true) ∧
    (o.remoteRole = none →
      (optionsToConfig fs cwd o).1.isRemoteSrc = false ∧
      (optionsToConfig fs cwd o).1.isRemoteDest = false) := by
  refine ⟨?_, ?_, ?_, ?_⟩
  · intro hpresent
    have hsome : (raw.remoteRole.isSome || raw.remoteUser.isSome ||
        raw.remoteHost.isSome) = true := by
      rcases hpresent with h | h | h <;> simp [h]
    have key : isProgramOptions raw =
        ((isStringField raw.src && isStringField raw.dest) &&
          (((raw.remoteRole == some (JSValue.str "src")) ||
            (raw.remoteRole == some (JSValue.str "dest")))
            && isStringField raw.remoteUser && isStringField raw.remoteHost)) := by
      simp only [isProgramOptions, hsome]
      cases hm : (isStringField raw.src && isStringField raw.dest) <;> simp [hm]
    rw [key]
    simp only [Bool.and_eq_true, Bool.or_eq_true, beq_iff_eq]
    tauto
  · intro hrole
    simp [optionsToConfig, hrole]
  · intro hrole
    simp [optionsToConfig, hrole]
  · intro hrole
    simp [optionsToConfig, hrole]

/-- C4 witness: a complete remote triple with role src is accepted and
yields isRemoteSrc without isRemoteDest; the theorem applied to a
partial triple rejects it. -/
theorem remote_triple_validation_witness :
    isProgramOptions
      { src := some (JSValue.str "/a"), dest := some (JSValue.str "/b"),
        remoteRole := some (JSValue.str "src"),
        remoteUser := some (JSValue.str "u"),
        remoteHost := some (JSValue.str "h") } = true ∧
    isProgramOptions
      { src := some (JSValue.str "/a"), dest := some (JSValue.str "/b"),
        remoteRole := some (JSValue.str "src") } ≠ true ∧
    (optionsToConfig (fun _ => true) "/cwd"
      { src := "/a", dest := "/b", remoteRole := some "src",
        remoteUser := some "u", remoteHost := some "h" }).1.isRemoteSrc = true := by
  refine ⟨?_, ?_, ?_⟩
  · exact (remote_triple_validation
      { src := some (JSValue.str "/a"), dest := some (JSValue.str "/b"),
        remoteRole := some (JSValue.str "src"),
        remoteUser := some (JSValue.str "u"),
        remoteHost := some (JSValue.str "h") }
      { src := "/a", dest := "/b" } (fun _ => true) "/cwd").1
      (Or.inl (by decide)) |>.mpr
      (by exact ⟨rfl, rfl, Or.inl rfl, rfl, rfl⟩)
  · intro hv
    have := (remote_triple_validation
      { src := some (JSValue.str "/a"), dest := some (JSValue.str "/b"),
        remoteRole := some (JSValue.str "src") }
      { src := "/a", dest := "/b" } (fun _ => true) "/cwd").1
      (Or.inl (by decide)) |>.mp hv
    exact absurd this.2.2.2.1 (by decide)
  · exact ((remote_triple_validation
      { src := some (JSValue.str "/a") }
      { src := "/a", dest := "/b", remoteRole := some "src",
        remoteUser := some "u", remoteHost := some "h" }
      (fun _ => true) "/cwd").2.1 rfl).1

/-- C9: with an exclude-file path whose resolved absolute form does
not exist on the filesystem, configuration derivation still succeeds,
the resulting configuration carries no excludeFrom field, and exactly
one warning naming the missing resolved path was logged. -/
theorem excludeFrom_dropped_with_warning (fs : String → Bool) (cwd : String)
    (o : ProgramOptions) (e : String)
    (he : o.excludeFrom = some e) (hne : e ≠ "")
    (hmiss : fs (if isAbsolutePath e then e else pathJoin cwd e) = false) :
    (optionsToConfig fs cwd o).1.excludeFrom = none ∧
    (optionsToConfig fs cwd o).2 =
      ["Exclude file not found: " ++ (if isAbsolutePath e then e else pathJoin cwd e)] := by
  constructor <;> simp [optionsToConfig, he, hne, hmiss]

/-- C9 witness: a relative exclude path that resolves to a missing
file is dropped and warned about. -/
theorem excludeFrom_dropped_with_warning_witness :
    (optionsToConfig (fun _ => false) "/cwd"
      { src := "/a", dest := "/b", excludeFrom := some "missing.txt" }).1.excludeFrom =
      none ∧
    (optionsToConfig (fun _ => false) "/cwd"
      { src := "/a", dest := "/b", excludeFrom := some "missing.txt" }).2 =
      ["Exclude file not found: " ++
        (if isAbsolutePath "missing.txt" then "missing.txt"
         else pathJoin "/cwd" "missing.txt")] :=
  excludeFrom_dropped_with_warning (fun _ => false) "/cwd"
    { src := "/a", dest := "/b", excludeFrom := some "missing.txt" }
    "missing.txt" rfl (by decide) rfl

/-- C6: under a uniformly failing transport, the remote existence
probe normalizes to false and the remote listing of previous backups
normalizes to null, while remote destination-directory creation
propagates the failure (its remoteCommand call being the one with
throwError true). -/
theorem remote_failure_asymmetry (env : BackupEnv) (cfg : ProgramConfig)
    (u hs p err : String)
    (hu : cfg.remoteUser = some u) (hune : u ≠ "")
    (hh : cfg.remoteHost = some hs) (hhne : hs ≠ "")
    (hdest : cfg.isRemoteDest = true)
    (hfail : ∀ c, env.run c = Except.error err) :
    remoteExists env.run u hs p = false ∧
    (getLatestBackupDir env cfg).1 = none ∧
    (createDestDir env cfg).1 = Except.error err := by
  refine ⟨?_, ?_, ?_⟩
  · simp [remoteExists, hfail]
  · simp [getLatestBackupDir, hdest, remoteCommand, hu, hh, hune, hhne, hfail]
  · simp [createDestDir, hdest, remoteCommand, hu, hh, hune, hhne, hfail]

/-- C6 witness: with an unreachable transport, the probe reports
false, the listing reports none, and remote directory creation fails
with the transport error. -/
theorem remote_failure_asymmetry_witness :
    remoteExists (fun _ => Except.error "connection refused") "u" "h" "/p" = false ∧
    (getLatestBackupDir
      { fsExists := fun _ => true, mkdirRec := fun _ => Except.ok (),
        run := fun _ => Except.error "connection refused", cwd := "/cwd" }
      ⟨{ src := "/a", dest := "/b", remoteRole := some "dest",
         remoteUser := some "u", remoteHost := some "h" }, false, true⟩).1 = none ∧
    (createDestDir
      { fsExists := fun _ => true, mkdirRec := fun _ => Except.ok (),
        run := fun _ => Except.error "connection refused", cwd := "/cwd" }
      ⟨{ src := "/a", dest := "/b", remoteRole := some "dest",
         remoteUser := some "u", remoteHost := some "h" }, false, true⟩).1 =
      Except.error "connection refused" :=
  remote_failure_asymmetry
    { fsExists := fun _ => true, mkdirRec := fun _ => Except.ok (),
      run := fun _ => Except.error "connection refused", cwd := "/cwd" }
    ⟨{ src := "/a", dest := "/b", remoteRole := some "dest",
       remoteUser := some "u", remoteHost := some "h" }, false, true⟩
    "u" "h" "/p" "connection refused" rfl (by decide) rfl (by decide) rfl
    (fun _ => rfl)

/-- C2: the composed sync invocation carries no link-dest argument
when no previous backup directory was found; with a previous directory
it carries exactly the single link-dest argument valued at the
relative path ../{previous basename}/; and in both modes the source
and destination arguments end in a slash. -/
theorem composeRsync_baseline_and_slashes (cfg : ProgramConfig) (cwd : String)
    (cur : String) :
    ((composeRsync cfg cwd none cur).linkDestArg = none) ∧
    (∀ d, (composeRsync cfg cwd (some d) cur).linkDestArg =
      some ("../" ++ pathBasename d ++ "/")) ∧
    (∀ l, ∃ s, (composeRsync cfg cwd l cur).srcArg = s ++ "/") ∧
    (∀ l, ∃ s, (composeRsync cfg cwd l cur).destArg = s ++ "/") := by
  refine ⟨rfl, fun d => rfl, fun l => ⟨getSrcPath cfg cwd, rfl⟩, fun l => ?_⟩
  exact ⟨getDestPath cfg cwd ++ "/" ++ pathBasename cur, by simp [composeRsync]⟩

/-- C1: divergence evidence for the command-line flags claim: the CLI
parser registers neither -p (--backup-prefix) nor -o (--rsync-options),
and the composed rsync option cluster carries a configured
rsyncOptions string verbatim, with no allow-list filtering, into the
executed command. -/
theorem cli_flags_and_allowlist_absent :
    ((cliOptionFlags.map Prod.fst).contains "-p" = false) ∧
    ((cliOptionFlags.map Prod.snd).contains "--backup-prefix" = false) ∧
    ((cliOptionFlags.map Prod.fst).contains "-o" = false) ∧
    ((cliOptionFlags.map Prod.snd).contains "--rsync-options" = false) ∧
    ((composeRsync
        ⟨{ src := "/a", dest := "/b", rsyncOptions := some "e --arbitrary-unfiltered" },
         false, false⟩ "/cwd" none "/b/BACKUP-X").optionCluster =
      "e --arbitrary-unfiltered") ∧
    (renderRsync (composeRsync
        ⟨{ src := "/a", dest := "/b", rsyncOptions := some "e --arbitrary-unfiltered" },
         false, false⟩ "/cwd" none "/b/BACKUP-X") =
      "rsync -e --arbitrary-unfiltered --delete  \"/a/\" \"/b/BACKUP-X/\"") := by
  refine ⟨by decide, by decide, by decide, by decide, rfl, by decide⟩

/-- C8: when the source does not exist, by the local filesystem check
or by the remote probe reporting absence, the backup aborts with an
error naming the missing source path, no sync invocation appears in
the execution trace, and the process exit code is 1. -/
theorem backup_aborts_on_missing_source (env : BackupEnv) (cfg : ProgramConfig)
    (suffix : String)
    (h : (cfg.isRemoteSrc = false ∧ env.fsExists cfg.src = false) ∨
         (cfg.isRemoteSrc = true ∧
          remoteExists env.run (jsTmpl cfg.remoteUser) (jsTmpl cfg.remoteHost)
            cfg.src = false)) :
    (backup env cfg suffix).1 =
      Except.error ("Source directory \"" ++ cfg.src ++ "\" does not exist.") ∧
    (∀ c, ExecEvent.sync c ∉ (backup env cfg suffix).2) ∧
    processExitCode (backup env cfg suffix).1 = 1 := by
  have hsrc : (existsSrcPath env cfg).1 = false := by
    rcases h with ⟨hloc, hex⟩ | ⟨hrem, hex⟩
    · simp [existsSrcPath, existsPath, hloc, hex]
    · simp [existsSrcPath, existsPath, hrem, hex]
  have hmain : backup env cfg suffix =
      (Except.error ("Source directory \"" ++ cfg.src ++ "\" does not exist."),
        (existsSrcPath env cfg).2) := by
    rw [backup]
    simp [hsrc]
  refine ⟨by rw [hmain], ?_, by rw [hmain]; rfl⟩
  intro c hc
  rw [hmain] at hc
  rcases h with ⟨hloc, _⟩ | ⟨hrem, _⟩
  · simp [existsSrcPath, existsPath, hloc] at hc
  · simp [existsSrcPath, existsPath, hrem] at hc

/-- C8 witness: a local configuration with a missing source aborts
with the descriptive error, an empty execution trace, and exit code
1. -/
theorem backup_aborts_on_missing_source_witness :
    (backup
      { fsExists := fun _ => false, mkdirRec := fun _ => Except.ok (),
        run := fun _ => Except.ok "", cwd := "/cwd" }
      ⟨{ src := "/tmp/a", dest := "/tmp/b" }, false, false⟩ "2025-11-23T193045").1 =
      Except.error "Source directory \"/tmp/a\" does not exist." ∧
    processExitCode
      (backup
        { fsExists := fun _ => false, mkdirRec := fun _ => Except.ok (),
          run := fun _ => Except.ok "", cwd := "/cwd" }
        ⟨{ src := "/tmp/a", dest := "/tmp/b" }, false, false⟩ "2025-11-23T193045").1 = 1 := by
  have h := backup_aborts_on_missing_source
    { fsExists := fun _ => false, mkdirRec := fun _ => Except.ok (),
      run := fun _ => Except.ok "", cwd := "/cwd" }
    ⟨{ src := "/tmp/a", dest := "/tmp/b" }, false, false⟩ "2025-11-23T193045"
    (Or.inl ⟨rfl, rfl⟩)
  exact ⟨h.1, h.2.2⟩

end Incback
